import Mathlib

/-!
Verification of the configuration-resolution and artifact-generation pipeline
of the taxonomy-development-tools seeder (`tdt/tdt.py`).

The Python source is shallowly embedded:
* `TaxonomyProject` mirrors the dataclass (same fields, same defaults).
  The Python field `citation : str = None` is modelled as `Option String`
  with default `none`; its *declared* type remains `str`, which matters for
  the dacite type check.
* A parsed YAML config file is a key/value mapping `List (String × YamlValue)`;
  a file that is not syntactically valid YAML is `ConfigFile.invalid msg`
  (in the Python, `yaml.load` raises `YAMLError`, the handler prints the
  error — reporting the offending input — and the run then aborts since
  `obj` is unbound; this fatal outcome is the `configParse` error value).
* `from_dict?` embeds `dacite.from_dict` on `TaxonomyProject`: each field is
  looked up by name, type-checked against its declared type, defaulted when
  absent; unknown keys are ignored; any wrongly-typed value aborts (`none`).
* `load_config`, `applyOverrides` embed `Generator.load_config`: Python's
  `if title: ...` truthiness is `pyTruthy` (`None` and `""` are falsy).
* The `seed` command's argument handling and id fallback are
  `parseRepoArg` / `resolveSeedProject`; after the fallback `project.id`
  can be Python `None`, so the resolved id is `Option String` and
  `pyFormat` embeds `"{}".format(x)` (`None` prints as `"None"`).
-/

/-- Python string truthiness for an optional string: `None` and `""` are falsy. -/
def pyTruthy : Option String → Bool
  | none => false
  | some s => s ≠ ""

/-- `"{}".format(x)` for a possibly-`None` Python string: `None` formats as `"None"`. -/
def pyFormat : Option String → String
  | none => "None"
  | some s => s

/-- A scalar/sequence value in a parsed YAML mapping. -/
inductive YamlValue where
  | vstr : String → YamlValue
  | vbool : Bool → YamlValue
  | vnull : YamlValue
  | vlist : List String → YamlValue
deriving DecidableEq, Repr

/-- A supplied configuration file: either not syntactically valid YAML, or a
top-level key/value mapping. -/
inductive ConfigFile where
  | invalid : String → ConfigFile
  | valid : List (String × YamlValue) → ConfigFile
deriving DecidableEq, Repr

/-- Embedding of the `TaxonomyProject` dataclass with its field defaults. -/
structure TaxonomyProject where
  id : String := ""
  title : String := ""
  git_user : String := ""
  repo : String := ""
  github_org : String := ""
  git_main_branch : String := "main"
  license : String := "https://creativecommons.org/licenses/unspecified"
  export_project_yaml : Bool := false
  description : String := "None"
  author : Option String := none
  creators : Option (List String) := none
  citation : Option String := none
deriving DecidableEq, Repr

/-- First value bound to key `k` in a parsed mapping. -/
def lookupKey (m : List (String × YamlValue)) (k : String) : Option YamlValue :=
  (m.find? (fun e => e.1 == k)).map Prod.snd

/-- dacite on a field declared `str` with a string default: absent key takes
the default, a present value must be a string. -/
def getStr? (m : List (String × YamlValue)) (k : String) (dflt : String) : Option String :=
  match lookupKey m k with
  | none => some dflt
  | some (.vstr s) => some s
  | some _ => none

/-- dacite on a field declared `bool`. -/
def getBool? (m : List (String × YamlValue)) (k : String) (dflt : Bool) : Option Bool :=
  match lookupKey m k with
  | none => some dflt
  | some (.vbool b) => some b
  | some _ => none

/-- dacite on a field declared `Optional[str]` (default `None`): `null` is accepted. -/
def getOptStr? (m : List (String × YamlValue)) (k : String) : Option (Option String) :=
  match lookupKey m k with
  | none => some none
  | some .vnull => some none
  | some (.vstr s) => some (some s)
  | some _ => none

/-- dacite on a field declared `Optional[List[str]]` (default `None`). -/
def getOptList? (m : List (String × YamlValue)) (k : String) : Option (Option (List String)) :=
  match lookupKey m k with
  | none => some none
  | some .vnull => some none
  | some (.vlist l) => some (some l)
  | some _ => none

/-- dacite on `citation`, declared `str` but defaulted to `None`: an absent key
takes the default `None` without a type check, but a present `null` (or any
non-string) fails the check against the declared type `str`. -/
def getCitation? (m : List (String × YamlValue)) : Option (Option String) :=
  match lookupKey m "citation" with
  | none => some none
  | some (.vstr s) => some (some s)
  | some _ => none

/-- Embedding of `dacite.from_dict(data_class=TaxonomyProject, data=obj)`:
fields are mapped by name, absent keys keep their defaults, unknown keys are
ignored, and a value that does not match the declared field type aborts. -/
def from_dict? (m : List (String × YamlValue)) : Option TaxonomyProject :=
  (getStr? m "id" "").bind fun id =>
  (getStr? m "title" "").bind fun title =>
  (getStr? m "git_user" "").bind fun git_user =>
  (getStr? m "repo" "").bind fun repo =>
  (getStr? m "github_org" "").bind fun github_org =>
  (getStr? m "git_main_branch" "main").bind fun git_main_branch =>
  (getStr? m "license" "https://creativecommons.org/licenses/unspecified").bind fun license =>
  (getBool? m "export_project_yaml" false).bind fun export_project_yaml =>
  (getStr? m "description" "None").bind fun description =>
  (getOptStr? m "author").bind fun author =>
  (getOptList? m "creators").bind fun creators =>
  (getCitation? m).bind fun citation =>
  some ⟨id, title, git_user, repo, github_org, git_main_branch, license,
        export_project_yaml, description, author, creators, citation⟩

/-- The top-level keys `from_dict?` reads; every other key is ignored. -/
def knownKeys : List String :=
  ["id", "title", "git_user", "repo", "github_org", "git_main_branch", "license",
   "export_project_yaml", "description", "author", "creators", "citation"]

/-- One `if override: field = override` step of `load_config`. -/
def overrideStr (cur : String) (ov : Option String) : String :=
  match ov with
  | none => cur
  | some s => if s = "" then cur else s

/-- The three override assignments at the end of `Generator.load_config`. -/
def applyOverrides (p : TaxonomyProject) (title org repo : Option String) : TaxonomyProject :=
  { p with title := overrideStr p.title title,
           github_org := overrideStr p.github_org org,
           repo := overrideStr p.repo repo }

/-- How loading a configuration can fail. -/
inductive LoadError where
  | configParse : String → LoadError
  | dacite : LoadError
deriving DecidableEq, Repr

/-- Embedding of `Generator.load_config(config_file, title, org, repo)`:
no file gives an all-defaults project; an unparsable file aborts the run
(reporting the YAML error); a parsed file goes through `from_dict?`; the
overrides are applied last. -/
def load_config (config_file : Option ConfigFile) (title org repo : Option String) :
    Except LoadError TaxonomyProject :=
  match config_file with
  | none => .ok (applyOverrides {} title org repo)
  | some (.invalid msg) => .error (.configParse msg)
  | some (.valid m) =>
    match from_dict? m with
    | none => .error .dacite
    | some p => .ok (applyOverrides p title org repo)

/-- How the `seed` command can fail before generation starts. -/
inductive SeedError where
  | usage : List String → SeedError
  | load : LoadError → SeedError
deriving DecidableEq, Repr

/-- The positional-argument handling at the top of `seed`: more than one repo
name raises `Exception('max one repo; ...')`; one name is taken; none gives
Python `None`. -/
def parseRepoArg (repos : List String) : Except SeedError (Option String) :=
  match repos with
  | [] => .ok none
  | [r] => .ok (some r)
  | _ => .error (.usage repos)

/-- The project after `seed`'s id fallback: `project.id` may now be Python
`None`, so it is an `Option String` here; all other fields are unchanged. -/
structure ResolvedProject where
  id : Option String
  title : String
  git_user : String
  repo : String
  github_org : String
  git_main_branch : String
  license : String
  export_project_yaml : Bool
  description : String
  author : Option String
  creators : Option (List String)
  citation : Option String
deriving DecidableEq, Repr

/-- The fallback `if project.id is None or project.id == "": project.id = repo`
in `seed`, where `repo` is the (possibly absent) positional argument. A
project returned by `load_config` always has a string id, so only the
emptiness test matters. -/
def resolveSeedProject (p : TaxonomyProject) (repoArg : Option String) : ResolvedProject :=
  { id := if p.id = "" then repoArg else some p.id,
    title := p.title, git_user := p.git_user, repo := p.repo,
    github_org := p.github_org, git_main_branch := p.git_main_branch,
    license := p.license, export_project_yaml := p.export_project_yaml,
    description := p.description, author := p.author, creators := p.creators,
    citation := p.citation }

/-- The configuration-resolution part of `seed`: positional-argument check,
`load_config` with the CLI overrides (`--title`, `--user`, positional repo),
then the id fallback. -/
def seed_resolve (config : Option ConfigFile) (title user : Option String)
    (repos : List String) : Except SeedError ResolvedProject :=
  match parseRepoArg repos with
  | .error e => .error e
  | .ok repoArg =>
    match load_config config title user repoArg with
    | .error e => .error (.load e)
    | .ok p => .ok (resolveSeedProject p repoArg)

/-- `if outdir is None: outdir = "target/{}".format(project.repo)`. -/
def resolveOutdir (outdir : Option String) (rp : ResolvedProject) : String :=
  match outdir with
  | none => "target/" ++ rp.repo
  | some d => d

/-- `"{}/{}_project_config.yaml".format(outdir, project.id)`. -/
def tdt_config_path (outdir : String) (id : Option String) : String :=
  outdir ++ "/" ++ pyFormat id ++ "_project_config.yaml"

/-- `"{}/purl/{}.yml".format(outdir, project.id)` from `create_purl_config`. -/
def purl_config_path (outdir : String) (id : Option String) : String :=
  outdir ++ "/purl/" ++ pyFormat id ++ ".yml"

/-- `"{}/{}.json".format(outdir, project.id)` from `create_output_file`. -/
def output_file_path (outdir : String) (id : Option String) : String :=
  outdir ++ "/" ++ pyFormat id ++ ".json"

/-- The README text written by `create_readme`: the body is the description
when it is truthy, else the title. -/
def create_readme_content (rp : ResolvedProject) : String :=
  "# " ++ rp.title ++ "(" ++ pyFormat rp.id ++ ")" ++ "\n\n" ++
    (if rp.description ≠ "" then rp.description else rp.title) ++ "."

/-- The lines written by `create_purl_config`, in order. -/
def create_purl_config_lines (rp : ResolvedProject) : List String :=
  ["# PURL configuration for http://purl.bican.org/taxonomy/" ++ pyFormat rp.id,
   "",
   "idspace: " ++ pyFormat rp.id,
   "base_url: /taxonomy/" ++ pyFormat rp.id,
   "",
   "products:",
   "- " ++ pyFormat rp.id ++ ".json: https://raw.githubusercontent.com/" ++
     rp.github_org ++ "/" ++ rp.repo ++ "/main/" ++ pyFormat rp.id ++ ".json",
   "",
   "base_redirect: https://github.com/" ++ rp.github_org ++ "/" ++ rp.repo,
   "",
   "entries:",
   "",
   "# http://purl.bican.org/taxonomy/" ++ pyFormat rp.id ++ "/" ++ pyFormat rp.id ++ ".json",
   "- exact: /" ++ pyFormat rp.id ++ ".json",
   "  replacement: https://raw.githubusercontent.com/" ++ rp.github_org ++ "/" ++
     rp.repo ++ "/main/" ++ pyFormat rp.id ++ ".json"]

/-- `f.writelines(i + '\n' for i in lines)`. -/
def joinLines (lines : List String) : String :=
  String.join (lines.map (fun l => l ++ "\n"))

/-- The full text of the generated `purl/{id}.yml`. -/
def create_purl_config_content (rp : ResolvedProject) : String :=
  joinLines (create_purl_config_lines rp)

/-- The README text `create_folder` writes when both title and description are
truthy; `None` (or empty) for either suppresses the README. -/
def create_folder_readme : Option String → Option String → Option String
  | some t, some d =>
    if t = "" ∨ d = "" then none else some ("# " ++ t ++ "\n\n" ++ d)
  | _, _ => none

/-- The key/value mapping that `save_project_yaml` writes for a project:
`to_json` emits every field by name (`None` becomes `null`), and the
YAML dump/re-parse of that plain dict preserves the key/value pairs. -/
def project_to_mapping (p : TaxonomyProject) : List (String × YamlValue) :=
  [("id", .vstr p.id), ("title", .vstr p.title), ("git_user", .vstr p.git_user),
   ("repo", .vstr p.repo), ("github_org", .vstr p.github_org),
   ("git_main_branch", .vstr p.git_main_branch), ("license", .vstr p.license),
   ("export_project_yaml", .vbool p.export_project_yaml),
   ("description", .vstr p.description),
   ("author", match p.author with | none => .vnull | some a => .vstr a),
   ("creators", match p.creators with | none => .vnull | some l => .vlist l),
   ("citation", match p.citation with | none => .vnull | some c => .vstr c)]

/-- Content of one planned output file. `yamlEcho` stands for the
`save_project_yaml` serialization of the resolved project; `text` is a
literal (or copied) byte string. -/
inductive FileContent where
  | text : String → FileContent
  | yamlEcho : ResolvedProject → FileContent
deriving DecidableEq, Repr

/-- The static resource files (under `/tools`) that `seed` copies or
substitutes; their contents are opaque inputs. -/
structure Resources where
  table_tsv : String
  column_tsv : String
  datatype_tsv : String
  prefix_tsv : String
  import_tsv : String
  import_config_tsv : String
  taxonomy_config_tsv : String
  makefile : String
  ontodev_makefile : String
  run_sh : String
deriving DecidableEq, Repr

/-- The ordered list of files `seed` writes into `outdir` (paths with their
contents), in the order the Python code produces them. `configText` is the
byte content of the supplied `--config` file, copied verbatim when present.
(When `rp.id` is Python `None`, the real run would crash inside
`create_ontodev_tables` at `content.replace` — the planned paths are listed
with `pyFormat` regardless; no file outside this list is ever written.) -/
def seed_plan (outdir : String) (rp : ResolvedProject) (configText : Option String)
    (res : Resources) : List (String × FileContent) :=
  (if rp.export_project_yaml then [(outdir ++ "/project.yaml", FileContent.yamlEcho rp)] else [])
  ++ [(tdt_config_path outdir rp.id,
       match configText with
       | some t => FileContent.text t
       | none => FileContent.yamlEcho rp),
      (outdir ++ "/input_data/README.md",
       FileContent.text "# Input Files\n\nTaxonomy data files."),
      (outdir ++ "/curation_tables/README.md",
       FileContent.text "# Curation Tables\n\nCCN2 taxonomy curation tables."),
      (outdir ++ "/purl/README.md",
       FileContent.text ("# PURL Configuration\n\nBICAN Permanent URLs sample configuration file. " ++
         "Please make a pull request to place this file in [BICAN PURLs taxonomy configuration folder]" ++
         "(https://github.com/hkir-dev/purl.bican.org/tree/main/config/taxonomy).")),
      (purl_config_path outdir rp.id, FileContent.text (create_purl_config_content rp)),
      (outdir ++ "/README.md", FileContent.text (create_readme_content rp)),
      (output_file_path outdir rp.id, FileContent.text "\x7b\x7d"),
      (outdir ++ "/run.sh", FileContent.text res.run_sh),
      (outdir ++ "/Makefile", FileContent.text res.makefile),
      (outdir ++ "/ontodev.Makefile", FileContent.text res.ontodev_makefile),
      (outdir ++ "/curation_tables/table.tsv",
       FileContent.text (res.table_tsv.replace "\x7btaxonomy_id\x7d" (pyFormat rp.id))),
      (outdir ++ "/curation_tables/column.tsv",
       FileContent.text (res.column_tsv.replace "\x7btaxonomy_id\x7d" (pyFormat rp.id))),
      (outdir ++ "/curation_tables/datatype.tsv", FileContent.text res.datatype_tsv),
      (outdir ++ "/curation_tables/prefix.tsv", FileContent.text res.prefix_tsv),
      (outdir ++ "/curation_tables/import.tsv", FileContent.text res.import_tsv),
      (outdir ++ "/curation_tables/import_config.tsv", FileContent.text res.import_config_tsv),
      (outdir ++ "/curation_tables/" ++ pyFormat rp.id ++ "_config.tsv",
       FileContent.text res.taxonomy_config_tsv)]

/-- The directories `seed` creates (`outdir` itself and the three
`create_folder` calls). -/
def seed_dirs (outdir : String) : List String :=
  [outdir, outdir ++ "/input_data", outdir ++ "/curation_tables", outdir ++ "/purl"]

/-- A filesystem as a map from paths to file contents. -/
def FS : Type := String → Option FileContent

/-- Writing one file (`open(path, "w")` semantics: creates or overwrites). -/
def fsWrite (p : String) (c : FileContent) (fs : FS) : FS :=
  fun q => if q = p then some c else fs q

/-- `q` lives in the tree rooted at directory `d`. -/
def underDir (d q : String) : Bool :=
  d == q || (d ++ "/").data.isPrefixOf q.data

/-- `shutil.rmtree(d)`: every path under `d` is gone, others untouched.
(Removing a tree that does not exist changes nothing in this map model, so
the `os.path.exists` guard in `seed` is observationally absorbed.) -/
def fsRmtree (d : String) (fs : FS) : FS :=
  fun q => if underDir d q then none else fs q

/-- Writing all planned files in order. -/
def applyPlan (plan : List (String × FileContent)) (fs : FS) : FS :=
  plan.foldl (fun a e => fsWrite e.1 e.2 a) fs

/-- The filesystem effect of `seed`'s generation phase: the optional
`--clean` removal of `outdir`, then the planned writes in order. -/
def seed_run (clean : Bool) (outdir : String) (rp : ResolvedProject)
    (configText : Option String) (res : Resources) (fs : FS) : FS :=
  applyPlan (seed_plan outdir rp configText res)
    (if clean then fsRmtree outdir fs else fs)

/-- The README content exactly as the specification words it: title line,
blank line, then the description (the title standing in when the description
is empty) and a trailing period. -/
def c6_claimed_readme (rp : ResolvedProject) : String :=
  "# " ++ rp.title ++ "(" ++ pyFormat rp.id ++ ")" ++ "\n\n" ++
    (if rp.description = "" then rp.title else rp.description) ++ "."

/-- The purl file shape exactly as claim C7 lists it, beginning directly at
the `idspace` line (the claim names no content before `idspace`). -/
def c7_claimed_purl_lines (id org repo : String) : List String :=
  ["idspace: " ++ id,
   "base_url: /taxonomy/" ++ id,
   "",
   "products:",
   "- " ++ id ++ ".json: https://raw.githubusercontent.com/" ++ org ++ "/" ++ repo ++
     "/main/" ++ id ++ ".json",
   "",
   "base_redirect: https://github.com/" ++ org ++ "/" ++ repo,
   "",
   "entries:",
   "",
   "# http://purl.bican.org/taxonomy/" ++ id ++ "/" ++ id ++ ".json",
   "- exact: /" ++ id ++ ".json",
   "  replacement: https://raw.githubusercontent.com/" ++ org ++ "/" ++ repo ++
     "/main/" ++ id ++ ".json"]

/-- The full text of the purl file shape claimed by C7. -/
def c7_claimed_purl_content (id org repo : String) : String :=
  joinLines (c7_claimed_purl_lines id org repo)

/-- The resolved project produced by `seed` with no config file, no overrides
and no positional repo argument: every field keeps its built-in default and
the id fallback assigns Python `None`. -/
def rpNone : ResolvedProject :=
  { id := none, title := "", git_user := "", repo := "", github_org := "",
    git_main_branch := "main",
    license := "https://creativecommons.org/licenses/unspecified",
    export_project_yaml := false, description := "None", author := none,
    creators := none, citation := none }

/-- A concrete resolved project with id `X`, org `O`, repo `R`. -/
def rpX : ResolvedProject :=
  { rpNone with id := some "X", github_org := "O", repo := "R" }

/-- Concrete (empty) resource contents for witnesses. -/
def resEmpty : Resources :=
  { table_tsv := "", column_tsv := "", datatype_tsv := "", prefix_tsv := "",
    import_tsv := "", import_config_tsv := "", taxonomy_config_tsv := "",
    makefile := "", ontodev_makefile := "", run_sh := "" }

/-- A concrete pre-existing filesystem holding one stray file under `t/`. -/
def fs0 : FS := fun q => if q = "t/stray" then some (.text "keep") else none

/-- The project loaded from no config file with positional repo `r`. -/
def pR : TaxonomyProject := { repo := "r" }

/-- A concrete config mapping that sets only `title`. -/
def mT : List (String × YamlValue) := [("title", .vstr "FT")]

/-- The project `mT` loads to before overrides. -/
def p0T : TaxonomyProject := { title := "FT" }

/-- The project `mT` resolves to under a `--title CT` override. -/
def pT : TaxonomyProject := { title := "CT" }

/-- A concrete project whose citation is set (a plain string). -/
def pCit : TaxonomyProject := { citation := some "doi:10.1000/1" }

theorem lookupKey_cons_ne (k key : String) (v : YamlValue)
    (m : List (String × YamlValue)) (hne : k ≠ key) :
    lookupKey ((k, v) :: m) key = lookupKey m key := by
  have hb : ((k, v).1 == key) = false := by simpa using hne
  simp [lookupKey, List.find?_cons, hb]

theorem from_dict?_fields (m : List (String × YamlValue)) (p : TaxonomyProject)
    (h : from_dict? m = some p) :
    getStr? m "title" "" = some p.title ∧
      getStr? m "github_org" "" = some p.github_org ∧
      getStr? m "repo" "" = some p.repo := by
  simp only [from_dict?, Option.bind_eq_some, Option.some.injEq] at h
  obtain ⟨i, hi, t, ht, gu, hgu, r, hr, go, hgo, br, hbr, li, hli, ex, hex, de, hde,
    au, hau, cr, hcr, ci, hci, hp⟩ := h
  subst hp
  exact ⟨ht, hgo, hr⟩

theorem from_dict?_cons_unknown (k : String) (v : YamlValue)
    (m : List (String × YamlValue)) (hk : k ∉ knownKeys) :
    from_dict? ((k, v) :: m) = from_dict? m := by
  simp only [knownKeys, List.mem_cons, List.not_mem_nil, or_false, not_or] at hk
  obtain ⟨h1, h2, h3, h4, h5, h6, h7, h8, h9, h10, h11, h12⟩ := hk
  simp only [from_dict?, getStr?, getBool?, getOptStr?, getOptList?, getCitation?,
    lookupKey_cons_ne k "id" v m h1, lookupKey_cons_ne k "title" v m h2,
    lookupKey_cons_ne k "git_user" v m h3, lookupKey_cons_ne k "repo" v m h4,
    lookupKey_cons_ne k "github_org" v m h5, lookupKey_cons_ne k "git_main_branch" v m h6,
    lookupKey_cons_ne k "license" v m h7, lookupKey_cons_ne k "export_project_yaml" v m h8,
    lookupKey_cons_ne k "description" v m h9, lookupKey_cons_ne k "author" v m h10,
    lookupKey_cons_ne k "creators" v m h11, lookupKey_cons_ne k "citation" v m h12]

theorem applyPlan_not_mem (plan : List (String × FileContent)) (fs : FS) (q : String)
    (hq : q ∉ plan.map Prod.fst) : applyPlan plan fs q = fs q := by
  induction plan generalizing fs with
  | nil => rfl
  | cons e rest ih =>
    simp only [List.map_cons, List.mem_cons, not_or] at hq
    have h2 : applyPlan (e :: rest) fs = applyPlan rest (fsWrite e.1 e.2 fs) := rfl
    rw [h2, ih _ hq.2]
    simp [fsWrite, hq.1]

/-- C1 (counterexample): a config file sets `repo: foo` and leaves `id` empty,
no positional repo argument is given. The fallback assigns the (absent)
positional argument to `id`, so the resolved id is Python `None`, not the
resolved repo field `"foo"` — the claimed fallback value is wrong here. -/
theorem c1_counterexample :
    (seed_resolve (some (.valid [("repo", .vstr "foo")])) none none []).map
        (fun rp => (rp.id, rp.repo)) = .ok ((none : Option String), "foo") ∧
    (none : Option String) ≠ some "foo" := by
  refine ⟨rfl, by decide⟩

/-- C1 (amended): after file values and CLI overrides are applied, `id` is
replaced if and only if it is empty at that point, and the fallback value is
the positional repo argument — which coincides with the resolved `repo`
field whenever a non-empty positional argument was supplied. -/
theorem c1_amended_id_fallback (config : Option ConfigFile) (t u : Option String)
    (repos : List String) (repoArg : Option String) (p0 : TaxonomyProject)
    (harg : parseRepoArg repos = .ok repoArg)
    (hload : load_config config t u repoArg = .ok p0) :
    seed_resolve config t u repos = .ok (resolveSeedProject p0 repoArg) ∧
    (p0.id ≠ "" → (resolveSeedProject p0 repoArg).id = some p0.id) ∧
    (p0.id = "" → (resolveSeedProject p0 repoArg).id = repoArg) ∧
    (pyTruthy repoArg → repoArg = some p0.repo) ∧
    (pyTruthy repoArg → p0.id = "" →
      (resolveSeedProject p0 repoArg).id = some (resolveSeedProject p0 repoArg).repo) := by
  have hrepo : pyTruthy repoArg → repoArg = some p0.repo := by
    cases repoArg with
    | none => intro h; simp [pyTruthy] at h
    | some s =>
      intro h
      have hs : s ≠ "" := by simpa [pyTruthy] using h
      have hps : p0.repo = s := by
        cases config with
        | none =>
          simp only [load_config, Except.ok.injEq] at hload
          subst hload
          simp [applyOverrides, overrideStr, hs]
        | some cf =>
          cases cf with
          | invalid msg => simp [load_config] at hload
          | valid m =>
            simp only [load_config] at hload
            cases hfd : from_dict? m with
            | none => rw [hfd] at hload; simp at hload
            | some P =>
              rw [hfd] at hload
              simp only [Except.ok.injEq] at hload
              subst hload
              simp [applyOverrides, overrideStr, hs]
      rw [hps]
  refine ⟨?_, ?_, ?_, hrepo, ?_⟩
  · simp only [seed_resolve, harg, hload]
  · intro h; simp [resolveSeedProject, h]
  · intro h; simp [resolveSeedProject, h]
  · intro ht h
    have := hrepo ht
    simp [resolveSeedProject, h, this]

/-- Witness for C1 (amended): `seed r` with no config resolves `repo := "r"`,
and since `id` is empty it falls back to the positional argument `"r"`. -/
theorem c1_amended_id_fallback_witness :
    seed_resolve none none none ["r"] = .ok (resolveSeedProject pR (some "r")) ∧
    (resolveSeedProject pR (some "r")).id = some "r" :=
  have h := c1_amended_id_fallback none none none ["r"] (some "r") pR rfl rfl
  ⟨h.1, h.2.2.1 rfl⟩

/-- C2: for a parsed config file, each of the `title`, `org`→github_org and
`repo` overrides strictly overwrites its field when non-empty; an absent (or
falsy) override keeps the file value; and a key the file leaves unset keeps
its built-in default (CLI override > file value > built-in default). -/
theorem c2_override_precedence (m : List (String × YamlValue)) (t o r : Option String)
    (p0 p : TaxonomyProject)
    (hfile : from_dict? m = some p0)
    (hload : load_config (some (.valid m)) t o r = .ok p) :
    ((∀ s, t = some s → s ≠ "" → p.title = s) ∧
      (¬ pyTruthy t → p.title = p0.title) ∧
      (lookupKey m "title" = none → p0.title = "")) ∧
    ((∀ s, o = some s → s ≠ "" → p.github_org = s) ∧
      (¬ pyTruthy o → p.github_org = p0.github_org) ∧
      (lookupKey m "github_org" = none → p0.github_org = "")) ∧
    ((∀ s, r = some s → s ≠ "" → p.repo = s) ∧
      (¬ pyTruthy r → p.repo = p0.repo) ∧
      (lookupKey m "repo" = none → p0.repo = "")) := by
  have hf := from_dict?_fields m p0 hfile
  simp only [load_config, hfile, Except.ok.injEq] at hload
  subst hload
  have hov : ∀ (cur : String) (ov : Option String),
      (∀ s, ov = some s → s ≠ "" → overrideStr cur ov = s) ∧
      (¬ pyTruthy ov → overrideStr cur ov = cur) := by
    intro cur ov
    constructor
    · intro s hs hne; subst hs; simp [overrideStr, hne]
    · intro h
      cases ov with
      | none => rfl
      | some s =>
        have : s = "" := by simpa [pyTruthy] using h
        simp [overrideStr, this]
  have hdef : ∀ (k : String) (x : String), lookupKey m k = none →
      getStr? m k "" = some x → x = "" := by
    intro k x hk hx
    simp [getStr?, hk] at hx
    exact hx.symm
  refine ⟨⟨?_, ?_, ?_⟩, ⟨?_, ?_, ?_⟩, ⟨?_, ?_, ?_⟩⟩
  · intro s hs hne
    simpa [applyOverrides] using (hov p0.title t).1 s hs hne
  · intro h
    simpa [applyOverrides] using (hov p0.title t).2 h
  · intro hk; exact hdef "title" p0.title hk hf.1
  · intro s hs hne
    simpa [applyOverrides] using (hov p0.github_org o).1 s hs hne
  · intro h
    simpa [applyOverrides] using (hov p0.github_org o).2 h
  · intro hk; exact hdef "github_org" p0.github_org hk hf.2.1
  · intro s hs hne
    simpa [applyOverrides] using (hov p0.repo r).1 s hs hne
  · intro h
    simpa [applyOverrides] using (hov p0.repo r).2 h
  · intro hk; exact hdef "repo" p0.repo hk hf.2.2

/-- Witness for C2: a file sets `title: FT`; under `--title CT` the resolved
title is `CT`; `github_org` keeps the file-resolved value; and `repo`, unset
in the file, keeps the built-in default `""`. -/
theorem c2_override_precedence_witness :
    pT.title = "CT" ∧ pT.github_org = p0T.github_org ∧ p0T.repo = "" :=
  have h := c2_override_precedence mT (some "CT") none none p0T pT (by decide) rfl
  ⟨h.1.1 "CT" rfl (by decide), h.2.1.2.1 (by decide), h.2.2.2.2 rfl⟩

/-- C3 (counterexample): the all-defaults descriptor is producible by
resolution (no file, no overrides, empty id left as is by `load_config`),
its `citation` is Python `None`, so the config-echo file carries
`citation: null`; re-resolving that file fails dacite's type check against
the declared type `str` instead of returning the original descriptor. -/
theorem c3_counterexample :
    load_config none none none none = .ok ({} : TaxonomyProject) ∧
    ({} : TaxonomyProject).citation = none ∧
    load_config (some (.valid (project_to_mapping {}))) none none none =
      .error .dacite := by
  refine ⟨rfl, rfl, rfl⟩

/-- C3 (amended): serializing a resolved descriptor to the config-echo file
and re-resolving it with no overrides returns the descriptor unchanged,
provided its `citation` is an actual string; a `None` citation (the default)
serializes to `null` and makes re-resolution fail dacite's check. -/
theorem c3_amended_roundtrip (p : TaxonomyProject) (hc : p.citation ≠ none) :
    load_config (some (.valid (project_to_mapping p))) none none none = .ok p := by
  obtain ⟨id, title, gu, repo, org, br, lic, ex, desc, au, cr, ci⟩ := p
  cases ci with
  | none => simp at hc
  | some c => cases au <;> cases cr <;> rfl

/-- Witness for C3 (amended): a descriptor with a string citation
round-trips through the config-echo serialization. -/
theorem c3_amended_roundtrip_witness :
    load_config (some (.valid (project_to_mapping pCit))) none none none = .ok pCit :=
  c3_amended_roundtrip pCit (by decide)

/-- C4: two or more positional repo arguments always make `seed` raise its
usage error before any resolution, regardless of all other inputs; with zero
or one positional argument no usage error is ever raised. -/
theorem c4_repo_arity (config : Option ConfigFile) (t u : Option String)
    (repos : List String) :
    (2 ≤ repos.length → seed_resolve config t u repos = .error (.usage repos)) ∧
    (repos.length ≤ 1 → ∀ l, seed_resolve config t u repos ≠ .error (.usage l)) := by
  constructor
  · intro h
    match repos with
    | [] => simp at h
    | [r] => simp at h
    | a :: b :: rest => rfl
  · intro h l
    match repos with
    | [] =>
      simp only [seed_resolve, parseRepoArg]
      cases hc : load_config config t u none <;> simp [hc]
    | [r] =>
      simp only [seed_resolve, parseRepoArg]
      cases hc : load_config config t u (some r) <;> simp [hc]
    | a :: b :: rest => simp at h

/-- Witness for C4: two positional names fail with the usage error; one
positional name does not. -/
theorem c4_repo_arity_witness :
    seed_resolve none none none ["a", "b"] = .error (.usage ["a", "b"]) ∧
    seed_resolve none none none ["a"] ≠ .error (.usage ["a"]) :=
  ⟨(c4_repo_arity none none none ["a", "b"]).1 (by decide),
   fun h => (c4_repo_arity none none none ["a"]).2 (by decide) ["a"] h⟩

/-- C5: a config file that is not syntactically valid always aborts the run
with the parse error carrying the reported YAML message; a syntactically
valid file can never produce that error; and unknown top-level keys in a
valid file are ignored by the field mapping. -/
theorem c5_config_parse (msg : String) (m : List (String × YamlValue))
    (t o r : Option String) (k : String) (v : YamlValue) (hk : k ∉ knownKeys) :
    load_config (some (.invalid msg)) t o r = .error (.configParse msg) ∧
    seed_resolve (some (.invalid msg)) t o [] = .error (.load (.configParse msg)) ∧
    (∀ msg2, load_config (some (.valid m)) t o r ≠ .error (.configParse msg2)) ∧
    from_dict? ((k, v) :: m) = from_dict? m := by
  refine ⟨rfl, rfl, ?_, from_dict?_cons_unknown k v m hk⟩
  intro msg2 h
  simp only [load_config] at h
  cases hfd : from_dict? m <;> rw [hfd] at h <;> simp at h

/-- Witness for C5: a concrete unparsable file fails with its parse error,
and a concrete unknown key changes nothing. -/
theorem c5_config_parse_witness :
    load_config (some (.invalid "bad: [yaml")) none none none =
      .error (.configParse "bad: [yaml") ∧
    from_dict? [("unknown_key", .vstr "x")] = from_dict? [] :=
  have h := c5_config_parse "bad: [yaml" [] none none none
    "unknown_key" (.vstr "x") (by decide)
  ⟨h.1, h.2.2.2⟩

/-- C6: the generated `README.md` is exactly the title line `# {title}({id})`,
a blank line, then the description and a trailing period — with the title
standing in for the body when the description is the empty string. -/
theorem c6_readme_shape (rp : ResolvedProject) :
    create_readme_content rp = c6_claimed_readme rp := by
  unfold create_readme_content c6_claimed_readme
  by_cases h : rp.description = "" <;> simp [h]

/-- C7 (counterexample): for id `X`, org `O`, repo `R` the generated purl
file does not equal the claimed shape that begins at the `idspace` line —
the file opens with a comment line and a blank line first. -/
theorem c7_counterexample :
    create_purl_config_content rpX ≠ c7_claimed_purl_content "X" "O" "R" := by
  decide

/-- C7 (amended): the generated `purl/{id}.yml` is exactly a comment line
`# PURL configuration for http://purl.bican.org/taxonomy/{id}` and a blank
line, followed by the shape the claim lists (idspace, base_url, blank line,
products entry, blank line, base_redirect, blank line, entries, blank line,
comment, exact/replacement pair), in that order. -/
theorem c7_amended_purl_shape (rp : ResolvedProject) :
    create_purl_config_lines rp =
      ("# PURL configuration for http://purl.bican.org/taxonomy/" ++ pyFormat rp.id) :: "" ::
        c7_claimed_purl_lines (pyFormat rp.id) rp.github_org rp.repo ∧
    create_purl_config_content rp =
      joinLines (("# PURL configuration for http://purl.bican.org/taxonomy/" ++
        pyFormat rp.id) :: "" ::
        c7_claimed_purl_lines (pyFormat rp.id) rp.github_org rp.repo) :=
  ⟨rfl, rfl⟩

/-- C8 (counterexample): the seed plan does place a README inside
`input_data/` — the `create_folder` call for it passes a truthy title and
description, so the folder is not left empty. -/
theorem c8_counterexample :
    ("out/input_data/README.md",
      FileContent.text "# Input Files\n\nTaxonomy data files.") ∈
      seed_plan "out" rpX none resEmpty ∧
    create_folder_readme (some "Input Files") (some "Taxonomy data files.") ≠ none := by
  refine ⟨by simp [seed_plan, rpX, rpNone], by decide⟩

/-- C8 (amended): every generation run creates the `input_data/` directory
and writes a `README.md` into it titled `Input Files` with body
`Taxonomy data files.`. -/
theorem c8_amended_input_data_readme (outdir : String) (rp : ResolvedProject)
    (configText : Option String) (res : Resources) :
    (outdir ++ "/input_data") ∈ seed_dirs outdir ∧
    (outdir ++ "/input_data/README.md",
      FileContent.text "# Input Files\n\nTaxonomy data files.") ∈
      seed_plan outdir rp configText res ∧
    create_folder_readme (some "Input Files") (some "Taxonomy data files.") =
      some "# Input Files\n\nTaxonomy data files." := by
  refine ⟨by simp [seed_dirs], ?_, by decide⟩
  simp [seed_plan]

/-- C9: with the clean flag set, every path under `outDir` is removed before
any planned artifact is written; without it, generation only (re)writes the
planned artifact paths and every other pre-existing file keeps its content. -/
theorem c9_clean_frame (outdir : String) (rp : ResolvedProject)
    (configText : Option String) (res : Resources) (fs : FS) :
    (seed_run true outdir rp configText res fs =
        applyPlan (seed_plan outdir rp configText res) (fsRmtree outdir fs) ∧
      ∀ q, underDir outdir q → fsRmtree outdir fs q = none) ∧
    (∀ q, q ∉ (seed_plan outdir rp configText res).map Prod.fst →
        seed_run false outdir rp configText res fs q = fs q) := by
  refine ⟨⟨rfl, ?_⟩, ?_⟩
  · intro q hq
    simp [fsRmtree, hq]
  · intro q hq
    exact applyPlan_not_mem _ _ q hq

/-- Witness for C9: a stray file under `t/` is erased by the clean step, and
without clean it survives a full run untouched. -/
theorem c9_clean_frame_witness :
    fsRmtree "t" fs0 "t/stray" = none ∧
    seed_run false "t" rpX none resEmpty fs0 "t/stray" = fs0 "t/stray" :=
  have h := c9_clean_frame "t" rpX none resEmpty fs0
  ⟨h.1.2 "t/stray" (by decide), h.2 "t/stray" (by decide)⟩

/-- C10: `seed` with no config file and no positional argument resolves
without error to the all-defaults project whose id fallback is Python
`None`; the default output directory is `target/` (empty repo name) and the
id-derived artifact paths embed the literal string `None`. -/
theorem c10_none_id_artifacts :
    seed_resolve none none none [] = .ok rpNone ∧
    rpNone.id = none ∧
    resolveOutdir none rpNone = "target/" ∧
    tdt_config_path (resolveOutdir none rpNone) rpNone.id =
      "target//None_project_config.yaml" ∧
    purl_config_path (resolveOutdir none rpNone) rpNone.id =
      "target//purl/None.yml" ∧
    output_file_path (resolveOutdir none rpNone) rpNone.id =
      "target//None.json" := by
  refine ⟨rfl, rfl, rfl, rfl, rfl, rfl⟩
